import Mathlib

/-!
# Verification of the SMTP probing engine (`smtp.go`) of vikt0r0/email-verifier

Shallow embedding of the SMTP verification engine.  Network effects (DNS
lookup, TCP dial, SMTP replies) are modelled by an explicit oracle (`World`)
consumed via a call counter: each call to `GetClient` reads the next connect
outcome from the oracle, exactly mirroring the fact that each such call in the
Go source performs one fresh `newSMTPClient` + handshake interaction.

The MX connection race inside `newSMTPClient` and the timeout race inside
`dialSMTP` are modelled separately as state machines over the serialization
order of the goroutines' critical sections (the mutex in `newSMTPClient`
serializes the success branch; channel operations serialize the rest).
-/

/-- The classified message kinds carried by the error classifier's output
(the `Message` field of a `LookupError`).  The constants `ErrFullInbox`,
`ErrNotAllowed`, `ErrServerUnavailable` from the library are the kinds
`CheckCatchAll` switches on; `errOther` covers every other classified or
unclassified message. -/
inductive ErrMessage where
  | errFullInbox
  | errNotAllowed
  | errServerUnavailable
  | errTimeout
  | errNoMXRecords
  | errOther (s : String)
  deriving DecidableEq, Repr

/-- An error value as seen by the probers.  `message` is the classified
message kind compared against the error constants in `CheckCatchAll`. -/
structure SMTPError where
  message : ErrMessage
  deriving DecidableEq, Repr

/-- Modelled from the spec: `ParseSMTPError` (the Error Classifier, defined in
the library's `error.go`, not present under `src/`) "maps a raw transport or
protocol failure into one of a fixed set of semantic error kinds".  In this
embedding error values already carry their classified kind, so the classifier
acts as the identity on them. -/
def ParseSMTPError (e : SMTPError) : SMTPError := e

/-- The `SMTP` result record of `smtp.go` (five independent booleans, all
starting `false`: Go zero value). -/
structure SMTP where
  hostExists : Bool := false
  fullInbox : Bool := false
  catchAll : Bool := false
  deliverable : Bool := false
  disabled : Bool := false
  deriving DecidableEq, Repr

/-- The fresh result record `var ret SMTP` allocated by `CheckSMTP`:
the Go zero value, all flags `false`. -/
def newSMTP : SMTP := {}

/-- The behaviour of one established SMTP protocol session (an `smtp.Client`
returned by `newSMTPClient`): the server's replies to the `HELO/EHLO`, the
`MAIL FROM` and each possible `RCPT TO` command.  `none` means the command is
accepted; `some e` means it is rejected with (classified) error `e`. -/
structure Session where
  helloResult : Option SMTPError
  mailResult : Option SMTPError
  rcpt : String → Option SMTPError

/-- The fields of the library's `Verifier` read by `smtp.go`
(`smtpCheckEnabled`, `helloName`, `fromEmail`, `proxyURI`). -/
structure Verifier where
  helloName : String
  fromEmail : String
  proxyURI : String
  smtpCheckEnabled : Bool

/-- The network oracle for the prober level.  `connect n` is the outcome of
the `n`-th call to `newSMTPClient` during a run (either a connect-level
failure or an established session), and `randomLocal` is the 32-character
random alphanumeric local part produced by the PRNG in
`GenerateRandomEmail`. -/
structure World where
  connect : Nat → Except SMTPError Session
  randomLocal : String

/-- `GenerateRandomEmail` builds `<random>@<domain>`; the random local part
(32 alphanumeric characters drawn from the PRNG) is supplied by the oracle. -/
def GenerateRandomEmail (randomLocal domain : String) : String :=
  randomLocal ++ "@" ++ domain

/-- `(v *Verifier) GetClient(domain)`: dial any SMTP server for the domain
(`newSMTPClient`, abstracted as `w.connect n`), then perform the `Hello` and
`Mail` handshake steps.  Any failure is returned (classified) as an error.
Returns the new oracle counter; each call consumes exactly one connect
outcome. -/
def GetClient (v : Verifier) (w : World) (n : Nat) :
    Except SMTPError Session × Nat :=
  match w.connect n with
  | .error e => (.error (ParseSMTPError e), n + 1)
  | .ok client =>
    match client.helloResult with
    | some e => (.error (ParseSMTPError e), n + 1)
    | none =>
      match client.mailResult with
      | some e => (.error (ParseSMTPError e), n + 1)
      | none => (.ok client, n + 1)

/-- `(v *Verifier) CheckCatchAll(domain, ret)`: probe the deliverability of a
randomly generated address.  Returns the mutated record, the returned `error`
value, and the new oracle counter. -/
def CheckCatchAll (v : Verifier) (domain : String) (ret : SMTP) (w : World)
    (n : Nat) : (SMTP × Option SMTPError) × Nat :=
  let randomEmail := GenerateRandomEmail w.randomLocal domain
  match GetClient v w n with
  | (.error err, n') => ((ret, some (ParseSMTPError err)), n')
  | (.ok client, n') =>
    let ret1 := { ret with catchAll := true, hostExists := true }
    match client.rcpt randomEmail with
    | some err =>
      let e := ParseSMTPError err
      match e.message with
      | .errFullInbox => (({ ret1 with fullInbox := true }, none), n')
      | .errNotAllowed => (({ ret1 with disabled := true }, none), n')
      | .errServerUnavailable => (({ ret1 with catchAll := false }, none), n')
      | _ => ((ret1, none), n')
    | none => ((ret1, none), n')

/-- `(v *Verifier) CheckSMTPPresence(domain, username, ret)`: probe the
deliverability of `username@domain` on a fresh session. -/
def CheckSMTPPresence (v : Verifier) (domain username : String) (ret : SMTP)
    (w : World) (n : Nat) : (SMTP × Option SMTPError) × Nat :=
  match GetClient v w n with
  | (.error err, n') => ((ret, some (ParseSMTPError err)), n')
  | (.ok client, n') =>
    let ret1 := { ret with hostExists := true }
    let email := username ++ "@" ++ domain
    match client.rcpt email with
    | none => (({ ret1 with deliverable := true }, none), n')
    | some _ => ((ret1, none), n')

/-- A message placed on the channel `ch` of `newSMTPClient`: either an
established client (identified by a connection id) or a dial error. -/
inductive RaceMsg where
  | client (c : Nat)
  | err (e : SMTPError)
  deriving DecidableEq, Repr

/-- The completion of one dial goroutine in the MX race of `newSMTPClient`:
`success c` means `dialSMTP` returned the client with connection id `c`,
`failure e` means it returned error `e`.  A list of these is the order in
which the goroutines' critical sections execute (the mutex and the channel
serialize them). -/
inductive RaceEvent where
  | success (c : Nat)
  | failure (e : SMTPError)
  deriving DecidableEq, Repr

/-- The shared state of the MX race in `newSMTPClient`: the `done` flag, the
sequence of messages sent on `ch`, and the connections closed by losing
goroutines (`c.Close()`). -/
structure RaceState where
  done : Bool
  sent : List RaceMsg
  closed : List Nat
  deriving DecidableEq, Repr

/-- One dial goroutine of `newSMTPClient` reporting its outcome, as written
in the source: on error, send the error iff `!done`; on success, under the
mutex, if `!done` set `done` and send the client, otherwise close the
connection. -/
def raceStep (s : RaceState) (ev : RaceEvent) : RaceState :=
  match ev with
  | .failure e => if !s.done then { s with sent := s.sent ++ [.err e] } else s
  | .success c =>
    if !s.done then { s with done := true, sent := s.sent ++ [.client c] }
    else { s with closed := s.closed ++ [c] }

/-- The whole MX race: all goroutines report in the given serialization
order, starting from `done = false` and an empty channel history. -/
def runRace (events : List RaceEvent) : RaceState :=
  events.foldl raceStep ⟨false, [], []⟩

/-- The receive loop of `newSMTPClient` (`for { res := <-ch ... }`), reading
the messages sent on `ch` in order: a client message returns that client;
errors accumulate until one error per MX record has been collected, at which
point `errs[0]` is returned.  `none` means the loop is still blocked on the
channel. -/
def collectLoop (numRecords : Nat) (errs : List SMTPError) :
    List RaceMsg → Option (Except SMTPError Nat)
  | [] => none
  | .client c :: _ => some (.ok c)
  | .err e :: rest =>
    if (errs ++ [e]).length = numRecords then
      some (.error ((errs ++ [e]).headD e))
    else collectLoop numRecords (errs ++ [e]) rest

/-- `newSMTPClient(domain, proxyURI)`: MX resolution followed by the dial
race.  `mxLookup` is the outcome of `net.LookupMX` (a resolution failure or
the list of resolved hosts); `events` is the serialization order of the dial
goroutines' completions.  `none` means the call has not returned (still
blocked on `ch`). -/
def newSMTPClient (mxLookup : Except SMTPError (List String))
    (events : List RaceEvent) : Option (Except SMTPError Nat) :=
  match mxLookup with
  | .error e => some (.error e)
  | .ok mxRecords =>
    if mxRecords.length = 0 then some (.error ⟨.errNoMXRecords⟩)
    else collectLoop mxRecords.length [] (runRace events).sent

/-- `dialSMTP(addr, proxyURI)`: the background goroutine establishes the
connection and upgrades it to an SMTP client, placing its outcome in a
one-slot channel; the caller observes whichever of that outcome and the
timer comes first.  `timerFirst` says the timer fired before the background
attempt completed; `attempt` is the attempt's eventual outcome (a connection
id, or an error).  Returns the function's result together with the list of
connections the abandoned goroutine closes — which, in the source, is empty:
a late-arriving client is placed in the buffered channel and never closed. -/
def dialSMTP (timerFirst : Bool) (attempt : Except SMTPError Nat) :
    Except SMTPError Nat × List Nat :=
  if timerFirst then (.error ⟨.errTimeout⟩, [])
  else (attempt, [])

/-- The connections opened by a `dialSMTP` invocation that remain open after
it returns, to no-one's hand: with the timer first and a successful late
attempt, the client sits in the abandoned buffered channel unclosed. -/
def dialSMTPLeaked (timerFirst : Bool) (attempt : Except SMTPError Nat) :
    List Nat :=
  match timerFirst, attempt with
  | true, .ok c => [c]
  | _, _ => []

/-- `(v *Verifier) CheckSMTP(domain, username)`: the verification
orchestrator.  Returns the (optional) result record, the returned error, and
the new oracle counter. -/
def CheckSMTP (v : Verifier) (domain username : String) (w : World) (n : Nat) :
    (Option SMTP × Option SMTPError) × Nat :=
  if !v.smtpCheckEnabled then ((none, none), n)
  else
    match CheckCatchAll v domain newSMTP w n with
    | ((ret, some err), n') => ((some ret, some err), n')
    | ((ret, none), n') =>
      if ret.catchAll || username == "" then ((some ret, none), n')
      else
        match CheckSMTPPresence v domain username ret w n' with
        | ((ret2, res), n'') => ((some ret2, res), n'')

/-- The connection ids of the successful dial attempts of an MX race, in
serialization order. -/
def raceSuccesses (events : List RaceEvent) : List Nat :=
  events.filterMap fun ev =>
    match ev with
    | .success c => some c
    | .failure _ => none

/-- The clients among a sequence of channel messages, in order. -/
def sentClients (msgs : List RaceMsg) : List Nat :=
  msgs.filterMap fun m =>
    match m with
    | .client c => some c
    | .err _ => none

/-- Spec-side statement of the Catch-All Prober's flag mapping (§4.5 of the
spec), as a function of the classification of the server's rejection of the
random-address probe; to be compared against `CheckCatchAll`'s actual
result. -/
def specCatchAllVerdict (m : ErrMessage) : SMTP :=
  match m with
  | .errFullInbox => { hostExists := true, catchAll := true, fullInbox := true }
  | .errNotAllowed => { hostExists := true, catchAll := true, disabled := true }
  | .errServerUnavailable => { hostExists := true, catchAll := false }
  | _ => { hostExists := true, catchAll := true }

/-- A server session that accepts every command. -/
def sessionAccept : Session := ⟨none, none, fun _ => none⟩

/-- The classified error of a rejected `HELO/EHLO`. -/
def errHello : SMTPError := ⟨.errOther "hello rejected"⟩

/-- A session whose server rejects the greeting (`client.Hello` fails) but
whose underlying connection and `smtp.NewClient` succeeded. -/
def sessionHelloFail : Session := ⟨some errHello, none, fun _ => none⟩

/-- A session that rejects every `RCPT TO` with the canonical
mailbox-does-not-exist classification. -/
def sessionNoUser : Session :=
  ⟨none, none, fun _ => some ⟨.errServerUnavailable⟩⟩

/-- A session that rejects every `RCPT TO` with a mailbox-full
classification. -/
def sessionFull : Session := ⟨none, none, fun _ => some ⟨.errFullInbox⟩⟩

/-- A classified connection-level failure. -/
def errConn : SMTPError := ⟨.errOther "connection refused"⟩

/-- A world in which every connection attempt yields an all-accepting
session. -/
def wAccept : World := ⟨fun _ => .ok sessionAccept, "rnd32alnum"⟩

/-- A world in which every connection succeeds but the greeting is
rejected. -/
def wHelloFail : World := ⟨fun _ => .ok sessionHelloFail, "rnd32alnum"⟩

/-- A world in which every session rejects every recipient as
nonexistent. -/
def wNoUser : World := ⟨fun _ => .ok sessionNoUser, "rnd32alnum"⟩

/-- A world in which every session rejects every recipient as
mailbox-full. -/
def wFull : World := ⟨fun _ => .ok sessionFull, "rnd32alnum"⟩

/-- A world in which no connection can be established. -/
def wConnFail : World := ⟨fun _ => .error errConn, "rnd32alnum"⟩

/-- A verifier with SMTP checking enabled. -/
def vEnabled : Verifier := ⟨"hello.localhost", "probe@example.org", "", true⟩

/-- A verifier with SMTP checking disabled. -/
def vDisabled : Verifier := ⟨"hello.localhost", "probe@example.org", "", false⟩

/-- Auxiliary: `CheckCatchAll` never touches the `deliverable` field of the
record it mutates. -/
theorem checkCatchAll_deliverable_aux (v : Verifier) (domain : String)
    (ret : SMTP) (w : World) (n : Nat) :
    ((CheckCatchAll v domain ret w n).1.1).deliverable = ret.deliverable := by
  unfold CheckCatchAll GetClient
  repeat' (first | split | dsimp only)

/-- Auxiliary: `CheckSMTPPresence` writes only the `hostExists` and
`deliverable` fields; moreover it never unsets `hostExists`. -/
theorem checkSMTPPresence_frame_aux (v : Verifier) (domain username : String)
    (ret : SMTP) (w : World) (n : Nat) :
    ((CheckSMTPPresence v domain username ret w n).1.1).fullInbox
        = ret.fullInbox ∧
    ((CheckSMTPPresence v domain username ret w n).1.1).catchAll
        = ret.catchAll ∧
    ((CheckSMTPPresence v domain username ret w n).1.1).disabled
        = ret.disabled ∧
    (ret.hostExists = true →
      ((CheckSMTPPresence v domain username ret w n).1.1).hostExists = true) := by
  unfold CheckSMTPPresence GetClient
  repeat' (first | split | dsimp only)
  all_goals simp

/-- C9: if SMTP checking is disabled in the configuration, `CheckSMTP`
returns a nil result and a nil error immediately; the oracle counter is
unchanged, so no connection attempt (network I/O) is consumed. -/
theorem checkSMTP_disabled (v : Verifier) (domain username : String)
    (w : World) (n : Nat) (h : v.smtpCheckEnabled = false) :
    CheckSMTP v domain username w n = ((none, none), n) := by
  unfold CheckSMTP
  rw [h]
  rfl

/-- Witness for C9 at a concrete configuration and world. -/
theorem checkSMTP_disabled_witness :
    CheckSMTP vDisabled "example.com" "alice" wAccept 0 = ((none, none), 0) :=
  checkSMTP_disabled vDisabled "example.com" "alice" wAccept 0 rfl

/-- C10: `CheckSMTPPresence` leaves the `FullInbox`, `CatchAll` and
`Disabled` fields of the result record unchanged, for every configuration,
world and input record: the deliverability prober can never overwrite the
catch-all verdict. -/
theorem checkSMTPPresence_frame (v : Verifier) (domain username : String)
    (ret : SMTP) (w : World) (n : Nat) :
    ((CheckSMTPPresence v domain username ret w n).1.1).fullInbox
        = ret.fullInbox ∧
    ((CheckSMTPPresence v domain username ret w n).1.1).catchAll
        = ret.catchAll ∧
    ((CheckSMTPPresence v domain username ret w n).1.1).disabled
        = ret.disabled :=
  ⟨(checkSMTPPresence_frame_aux v domain username ret w n).1,
   (checkSMTPPresence_frame_aux v domain username ret w n).2.1,
   (checkSMTPPresence_frame_aux v domain username ret w n).2.2.1⟩

/-- C1: when the catch-all probe's session is established (connection,
greeting and sender declaration all succeed) and the server rejects the
random-address `RCPT TO` with classified error `e`, `CheckCatchAll` returns
no error and produces exactly the flag assignment prescribed for `e`'s
classification: mailbox-full sets `fullInbox` (catch-all stays true),
not-allowed sets `disabled` (catch-all stays true), server-unavailable
clears `catchAll`, and any other classification leaves the defaults. -/
theorem checkCatchAll_rejection_flags (v : Verifier) (domain : String)
    (w : World) (n : Nat) (s : Session) (e : SMTPError)
    (hconn : w.connect n = .ok s)
    (hhello : s.helloResult = none)
    (hmail : s.mailResult = none)
    (hrcpt : s.rcpt (GenerateRandomEmail w.randomLocal domain) = some e) :
    CheckCatchAll v domain newSMTP w n =
      ((specCatchAllVerdict e.message, none), n + 1) := by
  unfold CheckCatchAll GetClient ParseSMTPError
  simp only [hconn, hhello, hmail, hrcpt]
  unfold specCatchAllVerdict newSMTP
  cases hm : e.message <;> rfl

/-- Witness for C1: a server that rejects the random address as
nonexistent yields `catchAll = false` and no error. -/
theorem checkCatchAll_rejection_flags_witness :
    CheckCatchAll vEnabled "example.com" newSMTP wNoUser 0 =
      ((⟨true, false, false, false, false⟩, none), 1) :=
  checkCatchAll_rejection_flags vEnabled "example.com" wNoUser 0 sessionNoUser
    ⟨.errServerUnavailable⟩ rfl rfl rfl rfl

/-- C3: when the catch-all probe returns without error and its result has
`catchAll = true`, or no username was supplied, `CheckSMTP` returns that
result as is (same record, same oracle counter: the deliverability prober is
never run) and its `deliverable` flag is `false`. -/
theorem checkSMTP_shortCircuit (v : Verifier) (domain username : String)
    (w : World) (n : Nat) (r : SMTP) (n' : Nat)
    (henabled : v.smtpCheckEnabled = true)
    (hca : CheckCatchAll v domain newSMTP w n = ((r, none), n'))
    (hshort : r.catchAll = true ∨ username = "") :
    CheckSMTP v domain username w n = ((some r, none), n') ∧
    r.deliverable = false := by
  have hcond : (r.catchAll || (username == "")) = true := by
    rcases hshort with h | h
    · simp [h]
    · simp [h]
  constructor
  · unfold CheckSMTP
    rw [henabled]
    simp only [Bool.not_true, Bool.false_eq_true, if_false, hca, hcond]
    simp
  · have hdel := checkCatchAll_deliverable_aux v domain newSMTP w n
    rw [hca] at hdel
    simpa [newSMTP] using hdel

/-- Witness for C3: a catch-all server (`catchAll = true` after the probe)
short-circuits `CheckSMTP` with `deliverable = false` even though a username
was supplied. -/
theorem checkSMTP_shortCircuit_witness :
    CheckSMTP vEnabled "example.com" "alice" wAccept 0 =
      ((some ⟨true, false, true, false, false⟩, none), 1) ∧
    (⟨true, false, true, false, false⟩ : SMTP).deliverable = false :=
  checkSMTP_shortCircuit vEnabled "example.com" "alice" wAccept 0
    ⟨true, false, true, false, false⟩ 1 rfl rfl (Or.inl rfl)

/-- Counterexample to C2 as stated: a run in which the connection to the
mail exchanger is established and the SMTP client created (`w.connect 0` is
an established session), but the greeting (`client.Hello`) is rejected —
`CheckSMTP` returns a record whose `hostExists` is `false`, contradicting
"hostExists is true whenever the SMTP client was created, regardless of the
outcome of the greeting". -/
theorem checkSMTP_hostExists_cex :
    wHelloFail.connect 0 = .ok sessionHelloFail ∧
    CheckSMTP vEnabled "example.com" "alice" wHelloFail 0 =
      ((some newSMTP, some errHello), 1) ∧
    newSMTP.hostExists = false :=
  ⟨rfl, rfl, rfl⟩

/-- Auxiliary: when the catch-all session's connection, greeting and sender
declaration all succeed, `CheckCatchAll` returns no error, sets
`hostExists`, and consumes exactly one oracle entry. -/
theorem checkCatchAll_ok_aux (v : Verifier) (domain : String) (ret : SMTP)
    (w : World) (n : Nat) (s : Session)
    (hconn : w.connect n = .ok s)
    (hhello : s.helloResult = none)
    (hmail : s.mailResult = none) :
    (CheckCatchAll v domain ret w n).1.2 = none ∧
    ((CheckCatchAll v domain ret w n).1.1).hostExists = true ∧
    (CheckCatchAll v domain ret w n).2 = n + 1 := by
  unfold CheckCatchAll GetClient
  simp only [hconn, hhello, hmail]
  repeat' (first | split | dsimp only)
  all_goals simp

/-- C2 (amended): `hostExists` is true in the returned record whenever the
catch-all probe's session is fully established — connection made, SMTP
client created, greeting and sender declaration accepted — regardless of the
outcome of any recipient probe.  (As stated the claim is false: if the
greeting or sender-declaration step fails after the connection is
established, `GetClient` returns an error and `hostExists` stays false, see
the counterexample.) -/
theorem checkSMTP_hostExists (v : Verifier) (domain username : String)
    (w : World) (n : Nat) (s : Session)
    (henabled : v.smtpCheckEnabled = true)
    (hconn : w.connect n = .ok s)
    (hhello : s.helloResult = none)
    (hmail : s.mailResult = none) :
    ((CheckSMTP v domain username w n).1.1).map SMTP.hostExists
      = some true := by
  obtain ⟨he, hh, -⟩ :=
    checkCatchAll_ok_aux v domain newSMTP w n s hconn hhello hmail
  unfold CheckSMTP
  rw [henabled]
  simp only [Bool.not_true, Bool.false_eq_true, if_false]
  rcases hca : CheckCatchAll v domain newSMTP w n with ⟨⟨r, eo⟩, n'⟩
  rw [hca] at he hh
  simp only at he hh
  subst he
  dsimp only
  split
  · simp [hh]
  · rcases hp : CheckSMTPPresence v domain username r w n' with ⟨⟨r2, e2⟩, n2⟩
    have hmono :=
      (checkSMTPPresence_frame_aux v domain username r w n').2.2.2 hh
    rw [hp] at hmono
    simp only at hmono
    simp [hp, hmono]

/-- Witness for C2 (amended): an established session that rejects every
recipient still yields `hostExists = true`. -/
theorem checkSMTP_hostExists_witness :
    ((CheckSMTP vEnabled "example.com" "alice" wNoUser 0).1.1).map
      SMTP.hostExists = some true :=
  checkSMTP_hostExists vEnabled "example.com" "alice" wNoUser 0 sessionNoUser
    rfl rfl rfl rfl

/-- C8: the deliverability prober, run on a record with `deliverable` still
false, opens a fresh session of its own — it consumes exactly the oracle
entry at its own counter and returns counter `n + 1`, so inside `CheckSMTP`
(which invokes it with the counter left by the catch-all probe) it reads a
strictly later oracle entry than the catch-all probe did, never the same
session — returns no error, sets `hostExists = true` upon establishment,
and sets `deliverable = true` iff the server accepts the recipient probe
against `username@domain`. -/
theorem checkSMTPPresence_spec (v : Verifier) (domain username : String)
    (ret : SMTP) (w : World) (n : Nat) (s : Session)
    (hconn : w.connect n = .ok s)
    (hhello : s.helloResult = none)
    (hmail : s.mailResult = none)
    (hdel : ret.deliverable = false) :
    (CheckSMTPPresence v domain username ret w n).2 = n + 1 ∧
    (CheckSMTPPresence v domain username ret w n).1.2 = none ∧
    ((CheckSMTPPresence v domain username ret w n).1.1).hostExists = true ∧
    (((CheckSMTPPresence v domain username ret w n).1.1).deliverable = true ↔
      s.rcpt (username ++ "@" ++ domain) = none) := by
  unfold CheckSMTPPresence GetClient
  simp only [hconn, hhello, hmail]
  try dsimp only
  split <;> simp_all

/-- Witness for C8: an all-accepting session makes `alice@example.com`
deliverable, with `hostExists` set and one oracle entry consumed. -/
theorem checkSMTPPresence_spec_witness :
    (CheckSMTPPresence vEnabled "example.com" "alice" newSMTP wAccept 0).2
        = 1 ∧
    (CheckSMTPPresence vEnabled "example.com" "alice" newSMTP wAccept 0).1.2
        = none ∧
    ((CheckSMTPPresence vEnabled "example.com" "alice" newSMTP
        wAccept 0).1.1).hostExists = true ∧
    (((CheckSMTPPresence vEnabled "example.com" "alice" newSMTP
        wAccept 0).1.1).deliverable = true ↔
      sessionAccept.rcpt ("alice" ++ "@" ++ "example.com") = none) :=
  checkSMTPPresence_spec vEnabled "example.com" "alice" newSMTP wAccept 0
    sessionAccept rfl rfl rfl rfl

/-- Auxiliary: once the `done` flag is set, no further message is sent on
the channel and every further success closes its own connection. -/
theorem foldl_raceStep_done (events : List RaceEvent) :
    ∀ s : RaceState, s.done = true →
      events.foldl raceStep s =
        ⟨true, s.sent, s.closed ++ raceSuccesses events⟩ := by
  induction events with
  | nil =>
    intro s h
    cases s
    simp_all [raceSuccesses]
  | cons ev rest ih =>
    intro s h
    cases ev with
    | failure e =>
      have hstep : raceStep s (.failure e) = s := by
        simp [raceStep, h]
      rw [List.foldl_cons, hstep, ih s h]
      simp [raceSuccesses]
    | success c =>
      have hstep : raceStep s (.success c) =
          ⟨true, s.sent, s.closed ++ [c]⟩ := by
        cases s
        simp_all [raceStep]
      rw [List.foldl_cons, hstep, ih _ rfl]
      simp [raceSuccesses, List.filterMap_cons, List.append_assoc]

/-- Auxiliary: from a state with `done` unset, the clients sent on the
channel are exactly the first success and the closed connections are
exactly all the other successes. -/
theorem foldl_raceStep_notDone (events : List RaceEvent) :
    ∀ s : RaceState, s.done = false →
      sentClients (events.foldl raceStep s).sent
          = sentClients s.sent ++ (raceSuccesses events).take 1 ∧
      (events.foldl raceStep s).closed
          = s.closed ++ (raceSuccesses events).drop 1 := by
  induction events with
  | nil =>
    intro s h
    simp [raceSuccesses]
  | cons ev rest ih =>
    intro s h
    cases ev with
    | failure e =>
      have hstep : raceStep s (.failure e) =
          ⟨false, s.sent ++ [.err e], s.closed⟩ := by
        cases s
        simp_all [raceStep]
      rw [List.foldl_cons, hstep]
      obtain ⟨h1, h2⟩ := ih ⟨false, s.sent ++ [.err e], s.closed⟩ rfl
      constructor
      · rw [h1]
        simp [sentClients, raceSuccesses, List.filterMap_append,
          List.filterMap_cons]
      · rw [h2]
        simp [raceSuccesses, List.filterMap_cons]
    | success c =>
      have hstep : raceStep s (.success c) =
          ⟨true, s.sent ++ [.client c], s.closed⟩ := by
        cases s
        simp_all [raceStep]
      rw [List.foldl_cons, hstep, foldl_raceStep_done rest _ rfl]
      constructor
      · simp [sentClients, raceSuccesses, List.filterMap_append,
          List.filterMap_cons]
      · simp [raceSuccesses, List.filterMap_cons]

/-- C4: in every MX race (every serialization of the dial goroutines'
completions), the clients admitted into the result channel are exactly the
first successful attempt — exactly one winner, even if several dialers
succeed — and the connections closed by their own goroutines are exactly
all the other successful attempts; hence no session opened during the race
stays live except the one handed to the caller. -/
theorem newSMTPClient_race_winner (events : List RaceEvent) :
    sentClients (runRace events).sent = (raceSuccesses events).take 1 ∧
    (runRace events).closed = (raceSuccesses events).drop 1 := by
  have h := foldl_raceStep_notDone events ⟨false, [], []⟩ rfl
  simpa [runRace, sentClients] using h

/-- Auxiliary: a race in which every attempt fails never sets `done`,
sends every error on the channel in completion order, and closes
nothing. -/
theorem foldl_raceStep_failures (es : List SMTPError) :
    ∀ s : RaceState, s.done = false →
      (es.map RaceEvent.failure).foldl raceStep s
        = ⟨false, s.sent ++ es.map RaceMsg.err, s.closed⟩ := by
  induction es with
  | nil =>
    intro s h
    cases s
    simp_all
  | cons e rest ih =>
    intro s h
    have hstep : raceStep s (.failure e) =
        ⟨false, s.sent ++ [.err e], s.closed⟩ := by
      cases s
      simp_all [raceStep]
    simp only [List.map_cons, List.foldl_cons, hstep]
    rw [ih _ rfl]
    simp

/-- Auxiliary: the receive loop stays blocked while fewer errors than MX
records have arrived. -/
theorem collectLoop_errs_short (numRecords : Nat) (ms : List SMTPError) :
    ∀ errs : List SMTPError, errs.length + ms.length < numRecords →
      collectLoop numRecords errs (ms.map RaceMsg.err) = none := by
  induction ms with
  | nil =>
    intro errs _
    simp [collectLoop]
  | cons e rest ih =>
    intro errs h
    simp only [List.length_cons] at h
    have h1 : ¬((errs ++ [e]).length = numRecords) := by
      simp only [List.length_append, List.length_singleton]
      omega
    simp only [List.map_cons, collectLoop]
    rw [if_neg h1]
    apply ih
    simp only [List.length_append, List.length_singleton]
    omega

/-- Auxiliary: once one error per MX record has arrived, the receive loop
returns `errs[0]`, the first error received. -/
theorem collectLoop_errs_exact (numRecords : Nat) (ms : List SMTPError)
    (d : SMTPError) :
    ∀ errs : List SMTPError, ms ≠ [] →
      errs.length + ms.length = numRecords →
      collectLoop numRecords errs (ms.map RaceMsg.err) =
        some (.error ((errs ++ ms).headD d)) := by
  induction ms with
  | nil =>
    intro errs hms _
    exact absurd rfl hms
  | cons e rest ih =>
    intro errs _ h
    simp only [List.length_cons] at h
    simp only [List.map_cons, collectLoop]
    rcases eq_or_ne rest [] with hr | hr
    · subst hr
      have h1 : (errs ++ [e]).length = numRecords := by
        simp only [List.length_append, List.length_singleton]
        simp only [List.length_nil] at h
        omega
      rw [if_pos h1]
      cases errs <;> rfl
    · have hpos : 0 < rest.length := List.length_pos.mpr hr
      have h1 : ¬((errs ++ [e]).length = numRecords) := by
        simp only [List.length_append, List.length_singleton]
        omega
      rw [if_neg h1,
        ih (errs ++ [e]) hr
          (by simp only [List.length_append, List.length_singleton]; omega)]
      rw [List.append_assoc, List.singleton_append]

/-- C7: if every dial attempt of the MX race fails, `newSMTPClient` returns
the first of the collected errors (`errs[0]`), and only once all attempts
have reported in: for every proper prefix of the completion sequence the
receive loop is still blocked (the call has not returned). -/
theorem newSMTPClient_allFail (mxRecords : List String)
    (es : List SMTPError) (d : SMTPError)
    (hlen : es.length = mxRecords.length)
    (hne : mxRecords ≠ []) :
    newSMTPClient (.ok mxRecords) (es.map RaceEvent.failure) =
      some (.error (es.headD d)) ∧
    ∀ k, k < es.length →
      newSMTPClient (.ok mxRecords) ((es.take k).map RaceEvent.failure)
        = none := by
  have hn0 : ¬(mxRecords.length = 0) := by
    simpa [List.length_eq_zero] using hne
  have hes : es ≠ [] := by
    intro hnil
    rw [hnil] at hlen
    exact hn0 hlen.symm
  constructor
  · unfold newSMTPClient
    dsimp only
    rw [if_neg hn0]
    have hsent : (runRace (es.map RaceEvent.failure)).sent
        = es.map RaceMsg.err := by
      rw [runRace, foldl_raceStep_failures es ⟨false, [], []⟩ rfl]
      simp
    rw [hsent]
    exact collectLoop_errs_exact mxRecords.length es d [] hes (by simpa using hlen)
  · intro k hk
    unfold newSMTPClient
    dsimp only
    rw [if_neg hn0]
    have hsent : (runRace ((es.take k).map RaceEvent.failure)).sent
        = (es.take k).map RaceMsg.err := by
      rw [runRace, foldl_raceStep_failures (es.take k) ⟨false, [], []⟩ rfl]
      simp
    rw [hsent]
    apply collectLoop_errs_short
    simp only [List.length_nil, List.length_take, Nat.zero_add]
    omega

/-- Witness for C7 at a two-record race in which both dials fail. -/
theorem newSMTPClient_allFail_witness :
    newSMTPClient (.ok ["mx1.example.com", "mx2.example.com"])
        ([errConn, ⟨.errTimeout⟩].map RaceEvent.failure) =
      some (.error errConn) ∧
    ∀ k, k < ([errConn, ⟨.errTimeout⟩] : List SMTPError).length →
      newSMTPClient (.ok ["mx1.example.com", "mx2.example.com"])
          (([errConn, ⟨.errTimeout⟩].take k).map RaceEvent.failure)
        = none :=
  newSMTPClient_allFail ["mx1.example.com", "mx2.example.com"]
    [errConn, ⟨.errTimeout⟩] errConn rfl (by simp)

/-- C6: a resolution failure of `net.LookupMX` is propagated unmodified, a
resolution returning zero hosts fails with the "no MX records found"
error, and in both cases the connection never gets established, so
`CheckSMTP`'s returned record keeps `hostExists = false`. -/
theorem newSMTPClient_resolutionFailure (e : SMTPError)
    (events : List RaceEvent) (v : Verifier) (domain username : String)
    (w : World) (n : Nat) (errC : SMTPError)
    (hconn : w.connect n = .error errC)
    (henabled : v.smtpCheckEnabled = true) :
    newSMTPClient (.error e) events = some (.error e) ∧
    newSMTPClient (.ok []) events = some (.error ⟨.errNoMXRecords⟩) ∧
    ((CheckSMTP v domain username w n).1.1).map SMTP.hostExists
      = some false := by
  refine ⟨rfl, rfl, ?_⟩
  unfold CheckSMTP CheckCatchAll GetClient
  rw [henabled]
  simp only [Bool.not_true, Bool.false_eq_true, if_false, hconn]
  rfl

/-- Witness for C6 at a concrete failing world. -/
theorem newSMTPClient_resolutionFailure_witness :
    newSMTPClient (.error errConn) [] = some (.error errConn) ∧
    newSMTPClient (.ok []) [] = some (.error ⟨.errNoMXRecords⟩) ∧
    ((CheckSMTP vEnabled "example.com" "alice" wConnFail 0).1.1).map
      SMTP.hostExists = some false :=
  newSMTPClient_resolutionFailure errConn [] vEnabled "example.com" "alice"
    wConnFail 0 errConn rfl rfl

/-- C5 evaluated at the failing input: when the timer fires before the
background attempt completes, `dialSMTP` returns the classified timeout
error (this half of the claim holds), but the abandoned goroutine closes no
connection — the late-arriving connection `0` is left in the abandoned
buffered channel, never closed, contradicting the claim's second half. -/
theorem dialSMTP_timeout_leak :
    dialSMTP true (.ok 0) = (.error ⟨.errTimeout⟩, []) ∧
    dialSMTPLeaked true (.ok 0) = [0] :=
  ⟨rfl, rfl⟩
